import Mathlib

/-!
Verification of the decision-tree editor engine
(`src/decision_tree_builder/static/js/editor.js`).

The JavaScript source is shallowly embedded: strings are Lean `String`s,
JS numbers are modelled as exact rationals (`ℚ`), the module-level
`state.nodes` / `state.edges` JS `Map`s are association lists in insertion
order, and DOM side effects (rendering, toasts) are modelled as explicit
data (returned notice lists, boolean temp-path flags).
-/

namespace DTB

/-- JS whitespace test used by `String.prototype.trim` (restricted to the
ASCII whitespace characters that can occur in the editor's data). -/
def jsIsWhitespace (c : Char) : Bool :=
  (c == ' ') || (c == '\t') || (c == '\n') || (c == '\r')

/-- JS `String.prototype.trim`: drop leading and trailing whitespace. -/
def jsTrim (s : String) : String :=
  String.mk (((s.data.dropWhile jsIsWhitespace).reverse.dropWhile jsIsWhitespace).reverse)

/-- JS `String.prototype.toLowerCase` on a single character, covering the
ASCII and Latin-1 letter ranges (the repertoire used by the editor's
string constants such as "Sí"). -/
def jsCharToLower (c : Char) : Char :=
  if 'A' ≤ c ∧ c ≤ 'Z' then Char.ofNat (c.toNat + 32)
  else if 'À' ≤ c ∧ c ≤ 'Þ' ∧ c ≠ '×' then Char.ofNat (c.toNat + 32)
  else c

/-- Characters kept by `sanitizeId`'s regex class `[a-z0-9_-]`
(editor.js line 211). -/
def isAllowedChar (c : Char) : Bool :=
  (('a' ≤ c) && (c ≤ 'z')) || (('0' ≤ c) && (c ≤ '9')) || (c == '_') || (c == '-')

/-- JS `replace(/_+/g, '_')`: collapse runs of underscores to one. -/
def collapseUnderscores : List Char → List Char
  | [] => []
  | [c] => [c]
  | c :: d :: rest =>
    if c == '_' && d == '_' then collapseUnderscores (d :: rest)
    else c :: collapseUnderscores (d :: rest)

/-- JS `replace(/\s+/g, ' ')` after whitespace has been mapped to spaces:
collapse runs of spaces to one. -/
def collapseSpaces : List Char → List Char
  | [] => []
  | [c] => [c]
  | c :: d :: rest =>
    if c == ' ' && d == ' ' then collapseSpaces (d :: rest)
    else c :: collapseSpaces (d :: rest)

/-- JS `replace(/^_|_$/g, '')`: remove one leading and one trailing
underscore (at the point of use the input has no underscore runs, so this
removes all edge underscores). -/
def stripEdgeUnderscore (l : List Char) : List Char :=
  let l1 := match l with
    | '_' :: rest => rest
    | other => other
  match l1.reverse with
  | '_' :: rest => rest.reverse
  | _ => l1

/-- `sanitizeId` (editor.js lines 207-214): trim, lowercase, replace runs
of characters outside `[a-z0-9_-]` by `_`, collapse underscore runs,
strip edge underscores, falling back to "nodo" when empty.  Replacing a
run of disallowed characters by one `_` and then collapsing `_` runs is
realised here by mapping each disallowed character to `_` before the
collapse, which yields the same composite result. -/
def sanitizeId (s : String) : String :=
  let trimmed := (jsTrim s).data
  let lowered := trimmed.map jsCharToLower
  let replaced := lowered.map (fun c => if isAllowedChar c then c else '_')
  let collapsed := collapseUnderscores replaced
  let stripped := stripEdgeUnderscore collapsed
  if stripped = [] then "nodo" else String.mk stripped

/-- `portKeyFromLabel` (editor.js lines 224-226): `sanitizeId(label || 'salida')`. -/
def portKeyFromLabel (label : String) : String :=
  sanitizeId (if label = "" then "salida" else label)

/-- `normaliseAnswer` (editor.js lines 228-230): `(value || '').toString().trim()`. -/
def normaliseAnswer (v : String) : String := jsTrim v

/-- `sanitizePortLabel` (editor.js lines 216-222): trimmed label, or the
fallback when the trimmed label is empty. -/
def sanitizePortLabel (value : String) (fallback : String) : String :=
  let base := jsTrim value
  if base = "" then fallback else base

/-- An entry of a question node's `expected_answers` list.  An absent
`description` key is modelled as the empty string. -/
structure Answer where
  value : String
  description : String
deriving DecidableEq, Repr

/-- `coerceExpectedAnswers` (editor.js lines 248-305) restricted to the
`{value, description}` object shape the editor itself produces: trim the
value, drop entries whose trimmed value is empty, trim the description. -/
def coerceExpectedAnswers (l : List Answer) : List Answer :=
  l.filterMap (fun a =>
    let v := jsTrim a.value
    if v = "" then none else some ⟨v, jsTrim a.description⟩)

/-- `serialiseExpectedAnswers` (editor.js lines 307-315): re-coerce; the
JSON omission of empty descriptions is the empty string here. -/
def serialiseExpectedAnswers (l : List Answer) : List Answer :=
  coerceExpectedAnswers l

/-- A node of the in-memory graph (`state.nodes` values).  Fields that are
absent on some node types (`question`, `message`, …) are carried as empty
defaults; `metadata` and `appearance` are opaque key/value objects,
modelled as association lists. -/
structure Node where
  id : String
  type : String
  posX : ℚ
  posY : ℚ
  title : String
  description : String
  question : String
  expected_answers : List Answer
  message : String
  severity : String
  metadata : List (String × String)
  appearance : List (String × String)
deriving DecidableEq, Repr

/-- An edge of the in-memory graph (`state.edges` values).  Live edges in
the editor carry the camel-case `sourcePort` / `targetPort` fields; the
snake-case `source_port` fallback read by a few call sites only occurs on
raw loaded data, which `initialise` rewrites into this shape. -/
structure Edge where
  id : String
  source : String
  target : String
  label : String
  sourcePort : String
  targetPort : String
deriving DecidableEq, Repr

/-- The pan/zoom view state (`state.view`). -/
structure View where
  scale : ℚ
  translateX : ℚ
  translateY : ℚ
deriving DecidableEq, Repr

/-- An in-progress linking gesture (`state.linking`). -/
structure Linking where
  sourceId : String
  sourcePort : String
deriving DecidableEq, Repr

/-- The module-level editor state (the parts of `state` that the embedded
operations read or write).  `tempPath` models whether the transient SVG
curve of a linking gesture exists. -/
structure EditorState where
  nodes : List (String × Node)
  edges : List (String × Edge)
  counters : List (String × Nat)
  linking : Option Linking
  tempPath : Bool
  isDirty : Bool
  view : View
deriving DecidableEq, Repr

/-- JS `Map.prototype.get`: first entry with the given key. -/
def mapGet {α : Type} (m : List (String × α)) (k : String) : Option α :=
  match m with
  | [] => none
  | (k2, v) :: rest => if k2 = k then some v else mapGet rest k

/-- JS `Map.prototype.set`: replace in place, or append a new entry. -/
def mapSet {α : Type} (m : List (String × α)) (k : String) (v : α) : List (String × α) :=
  match m with
  | [] => [(k, v)]
  | (k2, v2) :: rest => if k2 = k then (k, v) :: rest else (k2, v2) :: mapSet rest k v

/-- JS `Map.prototype.delete` (also deletion during `forEach`, which JS
Maps support): drop the entries with the given key. -/
def mapDelete {α : Type} (m : List (String × α)) (k : String) : List (String × α) :=
  m.filter (fun p => !(p.1 == k))

/-- The `edge.sourcePort || edge.source_port || (edge.label ?
portKeyFromLabel(edge.label) : 'salida')` resolution used at editor.js
lines 859 and 1334 (`||` is false on the empty string; the snake-case
field is absent on live edges, see `Edge`). -/
def resolveSourcePort (e : Edge) : String :=
  if e.sourcePort ≠ "" then e.sourcePort
  else if e.label ≠ "" then portKeyFromLabel e.label
  else "salida"

/-- `getOutgoingEdges` (editor.js lines 1771-1779). -/
def getOutgoingEdges (s : EditorState) (nodeId : String) : List Edge :=
  (s.edges.filter (fun p => p.2.source == nodeId)).map (fun p => p.2)

/-- JS `Math.round` (round half toward positive infinity) on an exact
rational. -/
def jsRound (q : ℚ) : ℤ := ⌊q + 1 / 2⌋

/-- `snap` (editor.js lines 469-472): snap a coordinate to the 10-unit grid. -/
def snap (value : ℚ) : ℚ := 10 * (jsRound (value / 10) : ℚ)

/-- `toWorkspace` (editor.js lines 195-200): screen → logical coordinates.
`originX`/`originY` stand for the workspace container's
`getBoundingClientRect()` position. -/
def toWorkspace (originX originY : ℚ) (v : View) (clientX clientY : ℚ) : ℚ × ℚ :=
  ((clientX - originX - v.translateX) / v.scale,
   (clientY - originY - v.translateY) / v.scale)

/-- The forward view transform realised by `applyTransform` (editor.js
lines 202-205) through the CSS `translate(tx, ty) scale(s)` it installs:
a logical point is mapped to `origin + translate + scale · logical`
screen coordinates (the formula stated in the specification). -/
def toScreen (originX originY : ℚ) (v : View) (x y : ℚ) : ℚ × ℚ :=
  (originX + v.translateX + v.scale * x,
   originY + v.translateY + v.scale * y)

/-- `handleWheel` (editor.js lines 2048-2062), after the ctrl/meta guard:
`wheelUp` is `event.deltaY < 0`; the pointer position is
`clientX - rect.left` / `clientY - rect.top`. -/
def handleWheel (v : View) (wheelUp : Bool) (clientX clientY originX originY : ℚ) : View :=
  let delta : ℚ := if wheelUp then 11 / 10 else 9 / 10
  let newScale := min (18 / 10) (max (3 / 10) (v.scale * delta))
  let pointerX := clientX - originX
  let pointerY := clientY - originY
  { scale := newScale,
    translateX := pointerX - (pointerX - v.translateX) * newScale / v.scale,
    translateY := pointerY - (pointerY - v.translateY) * newScale / v.scale }

/-- `computeConnectionPath` (editor.js lines 447-467), reduced to its two
cubic control points; the returned SVG path is
`M source C c1, c2, target` for the input anchors.  `Math.abs(dy) || 40`
is 40 exactly when `|dy| = 0`. -/
def computeConnectionPath (sx sy tx ty : ℚ) : (ℚ × ℚ) × (ℚ × ℚ) :=
  let dx := tx - sx
  let dy := ty - sy
  let horizontalOffset := max (|dx| * (45 / 100)) 80
  let c1x := sx + horizontalOffset
  let c1y := sy
  let c2x := tx - horizontalOffset
  let c2y := ty
  if dx < 0 then
    let extra := max 120 (|dx| * (6 / 10))
    let vertical := max 60 (if |dy| = 0 then 40 else |dy|)
    let direction : ℚ := if 0 ≤ dy then 1 else -1
    ((sx + extra, sy + direction * vertical), (tx - extra, ty - direction * vertical))
  else
    ((c1x, c1y), (c2x, c2y))

/-- The `matchByKey` map built by `reconcileQuestionEdges` (editor.js
lines 1787-1797): normalized-key → canonical answer text, first answer
wins.  The JS code guards `set` with `!matchByKey.has(key)`; here later
duplicates are simply shadowed, since `mapGet` returns the first entry. -/
def matchByKey : List Answer → List (String × String)
  | [] => []
  | a :: rest =>
    if normaliseAnswer a.value = "" then matchByKey rest
    else (portKeyFromLabel (normaliseAnswer a.value), a.value) :: matchByKey rest

/-- The per-edge body of `reconcileQuestionEdges`'s `state.edges.forEach`
(editor.js lines 1799-1812): keep foreign edges untouched, rewrite a
matching outgoing edge's label and `sourcePort`, drop a non-matching one. -/
def reconcileEdgeEntry (nodeId : String) (mk : List (String × String)) (p : String × Edge) :
    Option (String × Edge) :=
  if p.2.source = nodeId then
    Option.map
      (fun canonical =>
        (p.1, { p.2 with
          label := canonical,
          sourcePort := portKeyFromLabel (normaliseAnswer p.2.label) }))
      (mapGet mk (portKeyFromLabel (normaliseAnswer p.2.label)))
  else some p

/-- `reconcileQuestionEdges` (editor.js lines 1781-1816).  Returns the new
edge map together with the number of removed edges (positive ⇒ the
non-blocking "conexiones eliminadas" toast is shown unless `silent`). -/
def reconcileQuestionEdges (n : Node) (edges : List (String × Edge)) :
    List (String × Edge) × Nat :=
  if n.type = "question" then
    let mk := matchByKey (coerceExpectedAnswers n.expected_answers)
    let kept := edges.filterMap (reconcileEdgeEntry n.id mk)
    (kept, edges.length - kept.length)
  else (edges, 0)

/-- `teardownLinking` (editor.js lines 1302-1318): remove the transient
curve and listeners; the graph maps are untouched. -/
def teardownLinking (s : EditorState) : EditorState :=
  { s with tempPath := false }

/-- `cancelLinking` (editor.js lines 1365-1372). -/
def cancelLinking (s : EditorState) : EditorState :=
  match s.linking with
  | none => teardownLinking s
  | some _ => teardownLinking { s with linking := none }

/-- `beginLinking` (editor.js lines 1248-1287): cancel any prior gesture,
record the source, create the temp curve.  `portIdRaw` is the pressed
port element's `dataset.portId` (`'salida'` when absent). -/
def beginLinking (s : EditorState) (sourceId portIdRaw : String) : EditorState :=
  let portId := if portIdRaw = "" then "salida" else portIdRaw
  let s1 := if s.linking.isSome then cancelLinking s else s
  { s1 with linking := some ⟨sourceId, portId⟩, tempPath := true }

/-- `completeLinking` (editor.js lines 1320-1363).  `newEdgeId` stands for
the generated `generateEdgeId()` value and `portLabel` for the source
port element's `dataset.portLabel` (the empty string when absent); the
returned list carries the toast notices shown to the user. -/
def completeLinking (s : EditorState) (targetId targetPortId newEdgeId portLabel : String) :
    EditorState × List String :=
  match s.linking with
  | none => (s, [])
  | some l =>
    let s1 := teardownLinking { s with linking := none }
    if l.sourceId = "" ∨ targetId = "" ∨ l.sourceId = targetId then (s1, [])
    else
      match mapGet s1.nodes l.sourceId, mapGet s1.nodes targetId with
      | some _, some _ =>
        if (s1.edges.find? (fun p =>
              p.2.source == l.sourceId && resolveSourcePort p.2 == l.sourcePort)).isSome then
          (s1, ["Ya existe una conexión para esa salida."])
        else
          let label := jsTrim portLabel
          let edge : Edge :=
            { id := newEdgeId, source := l.sourceId, target := targetId,
              label := label, sourcePort := l.sourcePort, targetPort := targetPortId }
          ({ s1 with edges := mapSet s1.edges newEdgeId edge, isDirty := true }, [])
      | _, _ => (s1, [])

/-- `removeEdge` (editor.js lines 1374-1392), restricted to the graph
model (selection and re-rendering are presentational). -/
def removeEdge (s : EditorState) (edgeId : String) : EditorState :=
  match mapGet s.edges edgeId with
  | none => s
  | some _ => { s with edges := mapDelete s.edges edgeId, isDirty := true }

/-- `removeNode` (editor.js lines 1394-1406): delete the node and every
edge having it as source or target (the subsequent selection clearing and
re-rendering are presentational and not part of the graph model). -/
def removeNode (s : EditorState) (nodeId : String) : EditorState :=
  if (mapGet s.nodes nodeId).isSome then
    { s with
      nodes := mapDelete s.nodes nodeId,
      edges := s.edges.filter (fun p => !(p.2.source == nodeId || p.2.target == nodeId)),
      isDirty := true }
  else s

/-- The id-collision scan of `generateNodeId` (editor.js lines 434-438):
advance the counter past every taken `base_counter` id.  The fuel
`nodes.length + 1` suffices: the candidates are distinct, so a free one
occurs among the first `nodes.length + 1`. -/
def findFreeCounter (nodes : List (String × Node)) (base : String) : Nat → Nat → Nat
  | c, 0 => c
  | c, fuel + 1 =>
    if (mapGet nodes (base ++ "_" ++ toString c)).isSome then
      findFreeCounter nodes base (c + 1) fuel
    else c

/-- `generateNodeId` (editor.js lines 431-440): bump the per-type counter,
skipping ids already present. `type.toLowerCase()` is applied to the base. -/
def generateNodeId (s : EditorState) (ty : String) : EditorState × String :=
  let base := String.mk (ty.data.map jsCharToLower)
  let start := (match mapGet s.counters ty with | some k => k | none => 0) + 1
  let c := findFreeCounter s.nodes base start (s.nodes.length + 1)
  ({ s with counters := mapSet s.counters ty c }, base ++ "_" ++ toString c)

/-- `NODE_TYPE_LABELS` lookup (editor.js lines 28-31, 148-150). -/
def getNodeTypeLabel (ty : String) : String :=
  if ty = "question" then "Pregunta"
  else if ty = "message" then "Mensaje"
  else "Nodo"

/-- The node record built by `addNode` (editor.js lines 1822-1845):
fresh id, snapped jittered position, per-type default payload.  The
`counterValue` read (`state.counters[type] || 1`) happens after
`generateNodeId` bumped the counter. -/
def addNodeRecord (s : EditorState) (ty : String) (centerX centerY randX randY : ℚ) : Node :=
  let gen := generateNodeId s ty
  let counterValue :=
    match mapGet gen.1.counters ty with
    | some k => if k = 0 then 1 else k
    | none => 1
  let base : Node :=
    { id := gen.2, type := ty,
      posX := snap (centerX + randX), posY := snap (centerY + randY),
      title := getNodeTypeLabel ty ++ " " ++ toString counterValue,
      description := "", question := "", expected_answers := [],
      message := "", severity := "", metadata := [], appearance := [] }
  if ty = "question" then
    { base with
      question := "",
      expected_answers := serialiseExpectedAnswers [⟨"Sí", ""⟩, ⟨"No", ""⟩] }
  else if ty = "message" then
    { base with message := "", severity := "" }
  else base

/-- `addNode` (editor.js lines 1818-1850).  `centerX`/`centerY` are the
logical canvas centre and `randX`/`randY` the two `Math.random()*40 - 20`
jitter samples.  Returns the new state and the created node's id (which
the source passes to `selectNode`). -/
def addNode (s : EditorState) (ty : String) (centerX centerY randX randY : ℚ) :
    EditorState × String :=
  let gen := generateNodeId s ty
  ({ gen.1 with
      nodes := mapSet gen.1.nodes gen.2 (addNodeRecord s ty centerX centerY randX randY),
      isDirty := true },
   gen.2)

/-- The `while (seen.has(portId))` suffixing loop of `refreshNodePorts`
(editor.js lines 648-650): keep appending `_suffix` until the id is
unused.  The candidates strictly grow, so `seen.length + 1` steps of fuel
reach a free id. -/
def resolvePortCollision (seen : List String) (suffix : String) : String → Nat → String
  | pid, 0 => pid
  | pid, fuel + 1 =>
    if seen.contains pid then resolvePortCollision seen suffix (pid ++ "_" ++ suffix) fuel
    else pid

/-- The question-node branch of `refreshNodePorts` (editor.js lines
637-656), accumulating `(portId, label)` descriptors; `idx` is the
`forEach` index and `seen` the set of already-used port ids. -/
def buildQuestionPortsAux (seen : List String) (idx : Nat) : List Answer → List (String × String)
  | [] => []
  | entry :: rest =>
    let label := entry.value
    let sanitizedLabel := sanitizePortLabel label "salida"
    if sanitizedLabel = "" then buildQuestionPortsAux seen (idx + 1) rest
    else
      let pid0 := portKeyFromLabel sanitizedLabel
      let pid := resolvePortCollision seen (toString (idx + 1)) pid0 (seen.length + 1)
      (pid, label) :: buildQuestionPortsAux (pid :: seen) (idx + 1) rest

/-- The derived output-port list of a question node (editor.js lines
637-656): one port per coerced answer, with a single fallback port when
the list is empty. -/
def questionOutputPorts (answers : List Answer) : List (String × String) :=
  let outputs := buildQuestionPortsAux [] 0 (coerceExpectedAnswers answers)
  if outputs = [] then [("salida", "Salida")] else outputs

/-- `normaliseTitleValue` (editor.js lines 33-38): collapse whitespace
runs to single spaces, then trim. -/
def normaliseTitleValue (value : String) : String :=
  jsTrim (String.mk (collapseSpaces (value.data.map (fun c => if jsIsWhitespace c then ' ' else c))))

/-- A node entry of the persistence payload built by `normaliseNode`.
`Option` models presence of the JSON key: `none` means the key is absent
from the snapshot object. -/
structure SnapshotNode where
  id : String
  type : String
  posX : ℚ
  posY : ℚ
  metadata : Option (List (String × String))
  question : Option String
  expected_answers : Option (List Answer)
  message : Option String
  severity : Option String
  title : Option String
  description : Option String
  appearance : Option (List (String × String))
deriving DecidableEq, Repr

/-- An edge entry of the persistence payload (editor.js lines 1889-1896). -/
structure SnapshotEdge where
  id : String
  source : String
  target : String
  label : String
  source_port : String
  target_port : String
deriving DecidableEq, Repr

/-- `normaliseNode` (editor.js lines 1852-1882).  Note that the source
always includes the `metadata` key (`metadata: node.metadata || {}`),
while `title`, `description` and `appearance` are included only when
non-empty. -/
def normaliseNode (n : Node) : SnapshotNode :=
  { id := n.id, type := n.type, posX := n.posX, posY := n.posY,
    metadata := some n.metadata,
    question := if n.type = "question" then some n.question else none,
    expected_answers :=
      if n.type = "question" then some (serialiseExpectedAnswers n.expected_answers) else none,
    message := if n.type = "message" then some n.message else none,
    severity := if n.type = "message" then some n.severity else none,
    title :=
      (let t := normaliseTitleValue n.title
       if t = "" then none else some t),
    description := if n.description = "" then none else some n.description,
    appearance := if n.appearance = [] then none else some n.appearance }

/-- One payload edge (editor.js lines 1889-1896): `edge.label || ''`,
`edge.sourcePort || edge.source_port || ''` and `edge.targetPort ||
edge.target_port || ''` are the identity on live `Edge`s, whose string
fields already hold `''` when unset. -/
def buildPayloadEdge (e : Edge) : SnapshotEdge :=
  { id := e.id, source := e.source, target := e.target,
    label := e.label, source_port := e.sourcePort, target_port := e.targetPort }

/-- `buildPayload` (editor.js lines 1884-1904), restricted to the node and
edge lists (the flow id/name/description come from external config). -/
def buildPayload (s : EditorState) : List SnapshotNode × List SnapshotEdge :=
  ((s.nodes.map (fun p => normaliseNode p.2)),
   (s.edges.map (fun p => buildPayloadEdge p.2)))

/-- Modelled from the spec: the claim's own gloss of the answer-key
normalization — "trim, lowercase, non-alphanumeric runs collapsed to
'_'" — written exactly as those words say, to be compared with the
source's `sanitizeId`. -/
def specNormalizeKey (s : String) : String :=
  let lowered := (jsTrim s).data.map jsCharToLower
  let replaced := lowered.map (fun c =>
    if (('a' ≤ c) && (c ≤ 'z')) || (('0' ≤ c) && (c ≤ '9')) then c else '_')
  String.mk (collapseUnderscores replaced)

/-- The reconciliation invariant claimed for `reconcileQuestionEdges`:
every surviving outgoing edge of the question node carries the normalized
key of some current answer as `sourcePort` and that answer's canonical
text as `label`, and every outgoing edge whose label's normalized key
matches no current answer is gone from the edge map. -/
def ReconcileProp (n : Node) (edges : List (String × Edge)) : Prop :=
  (∀ p ∈ (reconcileQuestionEdges n edges).1, p.2.source = n.id →
     ∃ a ∈ coerceExpectedAnswers n.expected_answers,
       p.2.sourcePort = portKeyFromLabel (normaliseAnswer a.value) ∧ p.2.label = a.value) ∧
  (∀ p ∈ edges, p.2.source = n.id →
     mapGet (matchByKey (coerceExpectedAnswers n.expected_answers))
       (portKeyFromLabel (normaliseAnswer p.2.label)) = none →
     ∀ q ∈ (reconcileQuestionEdges n edges).1, q.1 ≠ p.1)

/-- The effect claimed for `removeNode`: the node is gone, all other
nodes are untouched, and the surviving edges are exactly the previous
edges not incident to the removed node. -/
def RemoveNodeProp (s : EditorState) (nid : String) : Prop :=
  mapGet (removeNode s nid).nodes nid = none ∧
  (∀ k, k ≠ nid → mapGet (removeNode s nid).nodes k = mapGet s.nodes k) ∧
  (∀ p : String × Edge, p ∈ (removeNode s nid).edges ↔
     p ∈ s.edges ∧ p.2.source ≠ nid ∧ p.2.target ≠ nid)

/-- The field-population discipline of the persistence snapshot: every
node entry carries its `metadata` (always, even when empty) and carries
`appearance` exactly when non-empty; every edge entry is present with its
resolved `source_port`/`target_port`. -/
def SnapshotProp (s : EditorState) : Prop :=
  (∀ p ∈ s.nodes,
     normaliseNode p.2 ∈ (buildPayload s).1 ∧
     (normaliseNode p.2).metadata = some p.2.metadata ∧
     (normaliseNode p.2).appearance =
       (if p.2.appearance = [] then none else some p.2.appearance)) ∧
  (∀ p ∈ s.edges,
     buildPayloadEdge p.2 ∈ (buildPayload s).2 ∧
     (buildPayloadEdge p.2).source_port = p.2.sourcePort ∧
     (buildPayloadEdge p.2).target_port = p.2.targetPort)

/-- Concrete question node used by the checks: answers "Sí" and "Tal vez"
(the answer-edit scenario of the specification). -/
def wQuestion : Node :=
  { id := "question_1", type := "question", posX := 0, posY := 0,
    title := "Pregunta 1", description := "",
    question := "¿Saludo correcto?",
    expected_answers := [⟨"Sí", ""⟩, ⟨"Tal vez", ""⟩],
    message := "", severity := "", metadata := [], appearance := [] }

/-- Concrete message node used by the checks. -/
def wMessage : Node :=
  { id := "message_1", type := "message", posX := 200, posY := 0,
    title := "Mensaje 1", description := "",
    question := "", expected_answers := [],
    message := "Fin", severity := "info", metadata := [], appearance := [] }

/-- Second concrete message node. -/
def wMessage2 : Node :=
  { id := "message_2", type := "message", posX := 200, posY := 120,
    title := "Mensaje 2", description := "",
    question := "", expected_answers := [],
    message := "Otro", severity := "", metadata := [], appearance := [] }

/-- Edges for the reconciliation check: a "Sí" edge, a stale "No" edge,
and an edge of another node. -/
def wEdgesC1 : List (String × Edge) :=
  [("e1", ⟨"e1", "question_1", "message_1", "Sí", "s", "input"⟩),
   ("e2", ⟨"e2", "question_1", "message_2", "No", "no", "input"⟩),
   ("e3", ⟨"e3", "message_1", "question_1", "volver", "volver", "input"⟩)]

/-- Question node whose single answer contains a hyphen. -/
def cHyphenNode : Node :=
  { id := "question_1", type := "question", posX := 0, posY := 0,
    title := "Pregunta 1", description := "", question := "",
    expected_answers := [⟨"A-B", ""⟩],
    message := "", severity := "", metadata := [], appearance := [] }

/-- The matching outgoing edge of `cHyphenNode`. -/
def cHyphenEdges : List (String × Edge) :=
  [("e1", ⟨"e1", "question_1", "message_1", "A-B", "a-b", "input"⟩)]

/-- Editor state used by the linking checks: an active linking gesture
from `question_1`'s output port "s", which already carries an edge. -/
def wLinkState : EditorState :=
  { nodes := [("question_1", wQuestion), ("message_1", wMessage), ("message_2", wMessage2)],
    edges := [("e1", ⟨"e1", "question_1", "message_1", "Sí", "s", "input"⟩)],
    counters := [("question", 1), ("message", 2)],
    linking := some ⟨"question_1", "s"⟩,
    tempPath := true, isDirty := false,
    view := ⟨1, 0, 0⟩ }

/-- Editor state used by the node-removal check. -/
def wRemoveState : EditorState :=
  { nodes := [("question_1", wQuestion), ("message_1", wMessage), ("message_2", wMessage2)],
    edges := [("e1", ⟨"e1", "question_1", "message_1", "Sí", "s", "input"⟩),
              ("e2", ⟨"e2", "message_1", "message_2", "", "salida", "input"⟩),
              ("e3", ⟨"e3", "question_1", "message_2", "Tal vez", "tal_vez", "input"⟩)],
    counters := [("question", 1), ("message", 2)],
    linking := none, tempPath := false, isDirty := false,
    view := ⟨1, 0, 0⟩ }

/- ------------------------------------------------------------------ -/
/- Helper lemmas. -/

theorem mapGet_mapSet_self {α : Type} (m : List (String × α)) (k : String) (v : α) :
    mapGet (mapSet m k v) k = some v := by
  induction m with
  | nil => simp [mapSet, mapGet]
  | cons hd tl ih =>
    obtain ⟨k2, v2⟩ := hd
    by_cases h : k2 = k
    · simp [mapSet, mapGet, h]
    · simp [mapSet, mapGet, h, ih]

theorem mapGet_mapDelete_self {α : Type} (m : List (String × α)) (k : String) :
    mapGet (mapDelete m k) k = none := by
  induction m with
  | nil => rfl
  | cons hd tl ih =>
    obtain ⟨k2, v2⟩ := hd
    by_cases h : k2 = k
    · have heq : mapDelete ((k2, v2) :: tl) k = mapDelete tl k := by
        simp [mapDelete, List.filter_cons, h]
      rw [heq]
      exact ih
    · have heq : mapDelete ((k2, v2) :: tl) k = (k2, v2) :: mapDelete tl k := by
        simp [mapDelete, List.filter_cons, h]
      rw [heq]
      simp only [mapGet, if_neg h]
      exact ih

theorem mapGet_mapDelete_ne {α : Type} (m : List (String × α)) {k k2 : String} (h : k2 ≠ k) :
    mapGet (mapDelete m k) k2 = mapGet m k2 := by
  induction m with
  | nil => rfl
  | cons hd tl ih =>
    obtain ⟨k3, v3⟩ := hd
    by_cases h3 : k3 = k
    · have heq : mapDelete ((k3, v3) :: tl) k = mapDelete tl k := by
        simp [mapDelete, List.filter_cons, h3]
      have hne : k3 ≠ k2 := by
        rw [h3]
        exact fun hc => h hc.symm
      rw [heq, ih]
      simp [mapGet, hne]
    · have heq : mapDelete ((k3, v3) :: tl) k = (k3, v3) :: mapDelete tl k := by
        simp [mapDelete, List.filter_cons, h3]
      rw [heq]
      by_cases h32 : k3 = k2
      · simp [mapGet, h32]
      · simp [mapGet, h32, ih]

theorem mapGet_matchByKey_some {l : List Answer} {k v : String}
    (h : mapGet (matchByKey l) k = some v) :
    ∃ a ∈ l, v = a.value ∧ k = portKeyFromLabel (normaliseAnswer a.value) := by
  induction l with
  | nil => simp [matchByKey, mapGet] at h
  | cons a rest ih =>
    by_cases ha : normaliseAnswer a.value = ""
    · rw [matchByKey, if_pos ha] at h
      obtain ⟨b, hb, hv, hk⟩ := ih h
      exact ⟨b, List.mem_cons_of_mem _ hb, hv, hk⟩
    · rw [matchByKey, if_neg ha] at h
      rw [mapGet] at h
      by_cases hk : portKeyFromLabel (normaliseAnswer a.value) = k
      · rw [if_pos hk] at h
        exact ⟨a, List.mem_cons_self _ _, (Option.some_injective _ h).symm, hk.symm⟩
      · rw [if_neg hk] at h
        obtain ⟨b, hb, hv, hk2⟩ := ih h
        exact ⟨b, List.mem_cons_of_mem _ hb, hv, hk2⟩

theorem reconcileEdgeEntry_some {nid : String} {mk : List (String × String)}
    {e r : String × Edge} (h : reconcileEdgeEntry nid mk e = some r) :
    (e.2.source ≠ nid ∧ r = e) ∨
    (e.2.source = nid ∧ ∃ c,
      mapGet mk (portKeyFromLabel (normaliseAnswer e.2.label)) = some c ∧
      r = (e.1, { e.2 with
        label := c,
        sourcePort := portKeyFromLabel (normaliseAnswer e.2.label) })) := by
  unfold reconcileEdgeEntry at h
  by_cases hs : e.2.source = nid
  · rw [if_pos hs] at h
    cases hmk : mapGet mk (portKeyFromLabel (normaliseAnswer e.2.label)) with
    | none =>
      rw [hmk] at h
      simp at h
    | some c =>
      rw [hmk] at h
      simp only [Option.map_some', Option.some.injEq] at h
      exact Or.inr ⟨hs, c, rfl, h.symm⟩
  · rw [if_neg hs] at h
    simp only [Option.some.injEq] at h
    exact Or.inl ⟨hs, h.symm⟩

theorem reconcileEdgeEntry_fst {nid : String} {mk : List (String × String)}
    {e r : String × Edge} (h : reconcileEdgeEntry nid mk e = some r) : r.1 = e.1 := by
  rcases reconcileEdgeEntry_some h with ⟨_, hr⟩ | ⟨_, c, _, hr⟩
  · rw [hr]
  · rw [hr]

theorem nodup_keys_eq {α : Type} {l : List (String × α)} (h : (l.map Prod.fst).Nodup)
    {p q : String × α} (hp : p ∈ l) (hq : q ∈ l) (hk : p.1 = q.1) : p = q := by
  induction l with
  | nil => cases hp
  | cons hd tl ih =>
    rw [List.map_cons, List.nodup_cons] at h
    rcases List.mem_cons.mp hp with hp1 | hp1 <;> rcases List.mem_cons.mp hq with hq1 | hq1
    · rw [hp1, hq1]
    · exfalso
      apply h.1
      rw [hp1] at hk
      rw [hk]
      exact List.mem_map_of_mem Prod.fst hq1
    · exfalso
      apply h.1
      rw [hq1] at hk
      rw [← hk]
      exact List.mem_map_of_mem Prod.fst hp1
    · exact ih h.2 hp1 hq1

/- ------------------------------------------------------------------ -/
/- Claim theorems. -/

/-- C4: for every logical point and every valid view state (scale in
[0.3, 1.8], any translate), converting the point to screen coordinates
with the forward view transform and back with `toWorkspace` yields the
point again. -/
theorem toWorkspace_toScreen_roundtrip (ox oy : ℚ) (v : View) (px py : ℚ)
    (h1 : 3 / 10 ≤ v.scale) (h2 : v.scale ≤ 18 / 10) :
    toWorkspace ox oy v (toScreen ox oy v px py).1 (toScreen ox oy v px py).2 = (px, py) := by
  have hs : v.scale ≠ 0 := ne_of_gt (lt_of_lt_of_le (by norm_num) h1)
  simp only [toWorkspace, toScreen, Prod.mk.injEq]
  constructor <;> (field_simp; ring)

/-- Witness for C4 at scale 1/2, translate (5, -3), origin (7, -2),
point (40, -20). -/
theorem toWorkspace_toScreen_roundtrip_check :
    ((3 : ℚ) / 10 ≤ (1 / 2 : ℚ) ∧ (1 / 2 : ℚ) ≤ 18 / 10) ∧
    toWorkspace 7 (-2) ⟨1 / 2, 5, -3⟩
      (toScreen 7 (-2) ⟨1 / 2, 5, -3⟩ 40 (-20)).1
      (toScreen 7 (-2) ⟨1 / 2, 5, -3⟩ 40 (-20)).2 = (40, -20) :=
  ⟨⟨by norm_num, by norm_num⟩,
   toWorkspace_toScreen_roundtrip 7 (-2) ⟨1 / 2, 5, -3⟩ 40 (-20) (by norm_num) (by norm_num)⟩

/-- C5: a wheel-zoom step from a valid view state keeps the logical point
under the pointer at the same screen position, and the resulting scale
stays in [0.3, 1.8]. -/
theorem handleWheel_fixes_pointer (v : View) (up : Bool) (cx cy ox oy : ℚ)
    (h1 : 3 / 10 ≤ v.scale) (h2 : v.scale ≤ 18 / 10) :
    toScreen ox oy (handleWheel v up cx cy ox oy)
      (toWorkspace ox oy v cx cy).1 (toWorkspace ox oy v cx cy).2 = (cx, cy) ∧
    3 / 10 ≤ (handleWheel v up cx cy ox oy).scale ∧
    (handleWheel v up cx cy ox oy).scale ≤ 18 / 10 := by
  have hs : v.scale ≠ 0 := ne_of_gt (lt_of_lt_of_le (by norm_num) h1)
  have hsc : (handleWheel v up cx cy ox oy).scale
      = min (18 / 10) (max (3 / 10) (v.scale * (if up then (11 : ℚ) / 10 else 9 / 10))) := rfl
  have htx : (handleWheel v up cx cy ox oy).translateX
      = (cx - ox) - ((cx - ox) - v.translateX)
          * (handleWheel v up cx cy ox oy).scale / v.scale := rfl
  have hty : (handleWheel v up cx cy ox oy).translateY
      = (cy - oy) - ((cy - oy) - v.translateY)
          * (handleWheel v up cx cy ox oy).scale / v.scale := rfl
  refine ⟨?_, ?_, ?_⟩
  · simp only [toScreen, toWorkspace, Prod.mk.injEq]
    rw [htx, hty]
    constructor <;> (field_simp; ring)
  · rw [hsc]
    exact le_min (by norm_num) (le_max_left _ _)
  · rw [hsc]
    exact min_le_left _ _

/-- Witness for C5: zoom in at pointer (100, 50), origin (0, 0), from
scale 1, translate (10, 20). -/
theorem handleWheel_fixes_pointer_check :
    ((3 : ℚ) / 10 ≤ (1 : ℚ) ∧ (1 : ℚ) ≤ 18 / 10) ∧
    (toScreen 0 0 (handleWheel ⟨1, 10, 20⟩ true 100 50 0 0)
      (toWorkspace 0 0 ⟨1, 10, 20⟩ 100 50).1 (toWorkspace 0 0 ⟨1, 10, 20⟩ 100 50).2 = (100, 50) ∧
     3 / 10 ≤ (handleWheel ⟨1, 10, 20⟩ true 100 50 0 0).scale ∧
     (handleWheel ⟨1, 10, 20⟩ true 100 50 0 0).scale ≤ 18 / 10) :=
  ⟨⟨by norm_num, by norm_num⟩,
   handleWheel_fixes_pointer ⟨1, 10, 20⟩ true 100 50 0 0 (by norm_num) (by norm_num)⟩

/-- C7: the connection curve uses symmetric horizontal control points
offset by max(0.45·|Δx|, 80) when the target is level with or to the
right of the source, and for a strictly backward connection the offset is
max(120, 0.6·|Δx|) with a vertical displacement of max(60, |Δy|) in the
direction of the vertical delta (downward when Δy = 0). -/
theorem computeConnectionPath_cases (sx sy tx ty : ℚ) :
    computeConnectionPath sx sy tx ty =
      if tx < sx then
        ((sx + max 120 (|tx - sx| * (6 / 10)),
          sy + (if 0 ≤ ty - sy then (1 : ℚ) else -1) * max 60 |ty - sy|),
         (tx - max 120 (|tx - sx| * (6 / 10)),
          ty - (if 0 ≤ ty - sy then (1 : ℚ) else -1) * max 60 |ty - sy|))
      else
        ((sx + max (|tx - sx| * (45 / 100)) 80, sy),
         (tx - max (|tx - sx| * (45 / 100)) 80, ty)) := by
  simp only [computeConnectionPath]
  by_cases hdx : tx - sx < 0
  · rw [if_pos hdx, if_pos (sub_neg.mp hdx)]
    by_cases hdy : |ty - sy| = 0
    · rw [if_pos hdy, hdy]
      norm_num
    · rw [if_neg hdy]
  · rw [if_neg hdx, if_neg (fun h => hdx (sub_neg.mpr h))]

/-- C8: canceling a linking gesture (begun with `beginLinking`, canceled
by Escape, pointer-cancel, or a release away from any input port — all of
which call `cancelLinking`) leaves the node and edge maps exactly as they
were before the gesture began, discarding only the transient curve and
linking record. -/
theorem cancelLinking_restores_model (s : EditorState) (src pid : String) :
    (cancelLinking (beginLinking s src pid)).nodes = s.nodes ∧
    (cancelLinking (beginLinking s src pid)).edges = s.edges ∧
    (cancelLinking (beginLinking s src pid)).linking = none ∧
    (cancelLinking (beginLinking s src pid)).tempPath = false ∧
    (cancelLinking s).nodes = s.nodes ∧
    (cancelLinking s).edges = s.edges := by
  cases hl : s.linking <;>
    simp [cancelLinking, beginLinking, teardownLinking, hl]

/-- C6: removing a node that is present deletes it and exactly the edges
whose source or target is that node, leaving every other node and edge
unchanged. -/
theorem removeNode_exact (s : EditorState) (nid : String)
    (h : (mapGet s.nodes nid).isSome = true) : RemoveNodeProp s nid := by
  unfold RemoveNodeProp removeNode
  rw [if_pos h]
  refine ⟨mapGet_mapDelete_self s.nodes nid, ?_, ?_⟩
  · intro k hk
    exact mapGet_mapDelete_ne s.nodes hk
  · intro p
    constructor
    · intro hp
      obtain ⟨hmem, hcond⟩ := List.mem_filter.mp hp
      refine ⟨hmem, ?_, ?_⟩ <;>
        (intro hc; rw [hc] at hcond; simp at hcond)
    · intro hp
      refine List.mem_filter.mpr ⟨hp.1, ?_⟩
      simp [hp.2.1, hp.2.2]

/-- Witness for C6: removing `message_1` from the three-node fixture. -/
theorem removeNode_exact_check :
    (mapGet wRemoveState.nodes "message_1").isSome = true ∧
    RemoveNodeProp wRemoveState "message_1" :=
  ⟨by decide, removeNode_exact wRemoveState "message_1" (by decide)⟩

/-- C3 (amended): the persistence snapshot always carries each node's
`metadata` (as an empty object when empty), carries `appearance` exactly
when non-empty, and every edge entry carries its resolved
`source_port`/`target_port`. -/
theorem buildPayload_populated (s : EditorState) : SnapshotProp s := by
  constructor
  · intro p hp
    exact ⟨List.mem_map_of_mem _ hp, rfl, rfl⟩
  · intro p hp
    exact ⟨List.mem_map_of_mem _ hp, rfl, rfl⟩

/-- C3 counterexample: a node with empty metadata still gets a `metadata`
key in its snapshot (`metadata: node.metadata || {}` is unconditional),
contradicting the claim that empty metadata is omitted. -/
theorem normaliseNode_empty_metadata_present :
    wMessage.metadata = [] ∧
    (normaliseNode wMessage).metadata = some [] ∧
    (normaliseNode wMessage).metadata ≠ none :=
  ⟨rfl, rfl, by decide⟩

/-- C1 (amended): after reconciliation every surviving outgoing edge of
the question node carries `sourcePort` equal to the `sanitizeId` key of
some current answer with that answer's canonical text as label, and every
outgoing edge whose label's key matches no current answer is deleted. -/
theorem reconcileQuestionEdges_spec (n : Node) (edges : List (String × Edge))
    (hq : n.type = "question") (hnd : (edges.map Prod.fst).Nodup) :
    ReconcileProp n edges := by
  have hre : (reconcileQuestionEdges n edges).1
      = edges.filterMap
          (reconcileEdgeEntry n.id (matchByKey (coerceExpectedAnswers n.expected_answers))) := by
    simp [reconcileQuestionEdges, hq]
  constructor
  · intro p hp hsrc
    rw [hre] at hp
    obtain ⟨orig, horig, hfo⟩ := List.mem_filterMap.mp hp
    rcases reconcileEdgeEntry_some hfo with ⟨hos, hpe⟩ | ⟨hos, c, hmk, hpe⟩
    · rw [hpe] at hsrc
      exact absurd hsrc hos
    · obtain ⟨a, ha, hv, hk⟩ := mapGet_matchByKey_some hmk
      have hsp : p.2.sourcePort = portKeyFromLabel (normaliseAnswer orig.2.label) := by
        rw [hpe]
      have hlb : p.2.label = c := by
        rw [hpe]
      refine ⟨a, ha, ?_, ?_⟩
      · rw [hsp]
        exact hk
      · rw [hlb]
        exact hv
  · intro p hp hsrc hnone q hq' hqp
    rw [hre] at hq'
    obtain ⟨orig, horig, hfo⟩ := List.mem_filterMap.mp hq'
    have hfst : q.1 = orig.1 := reconcileEdgeEntry_fst hfo
    have hop : orig = p := by
      refine nodup_keys_eq hnd horig hp ?_
      rw [← hfst]
      exact hqp
    rw [hop] at hfo
    rcases reconcileEdgeEntry_some hfo with ⟨hos, _⟩ | ⟨_, c, hmk, _⟩
    · exact absurd hsrc hos
    · rw [hnone] at hmk
      cases hmk

/-- Witness for C1: the answer-edit scenario — answers ["Sí", "Tal vez"],
a matching "Sí" edge, a stale "No" edge, and a foreign edge. -/
theorem reconcileQuestionEdges_spec_check :
    wQuestion.type = "question" ∧ (wEdgesC1.map Prod.fst).Nodup ∧
    ReconcileProp wQuestion wEdgesC1 :=
  ⟨by decide, by decide,
   reconcileQuestionEdges_spec wQuestion wEdgesC1 (by decide) (by decide)⟩

/-- C1 counterexample: with the answer "A-B", the surviving edge's
`sourcePort` is the `sanitizeId` key "a-b", which is not the claimed
"trim, lowercase, non-alphanumeric runs collapsed to underscore"
normalization of any current answer (that normalization gives "a_b"). -/
theorem reconcile_sourcePort_not_specNormalized :
    (reconcileQuestionEdges cHyphenNode cHyphenEdges).1.map (fun p => p.2.sourcePort)
      = ["a-b"] ∧
    (coerceExpectedAnswers cHyphenNode.expected_answers).map (fun a => specNormalizeKey a.value)
      = ["a_b"] ∧
    ("a-b" : String) ≠ "a_b" :=
  ⟨by decide, by decide, by decide⟩

/-- C2: completing a link gesture onto an input port when the source's
output port already carries an edge leaves the edge map unchanged and
shows the duplicate-connection error notice. -/
theorem completeLinking_occupied_rejected (s : EditorState) (l : Linking)
    (targetId tpid eid plabel : String)
    (hl : s.linking = some l) (hs1 : l.sourceId ≠ "") (ht1 : targetId ≠ "")
    (hne : l.sourceId ≠ targetId)
    (hsn : (mapGet s.nodes l.sourceId).isSome = true)
    (htn : (mapGet s.nodes targetId).isSome = true)
    (hex : ∃ p ∈ s.edges, p.2.source = l.sourceId ∧ resolveSourcePort p.2 = l.sourcePort) :
    (completeLinking s targetId tpid eid plabel).1.edges = s.edges ∧
    (completeLinking s targetId tpid eid plabel).2
      = ["Ya existe una conexión para esa salida."] := by
  have hfind : (s.edges.find? (fun p =>
      p.2.source == l.sourceId && resolveSourcePort p.2 == l.sourcePort)).isSome = true := by
    rw [List.find?_isSome]
    obtain ⟨p, hp, h1, h2⟩ := hex
    exact ⟨p, hp, by simp [h1, h2]⟩
  obtain ⟨sn, hsn'⟩ := Option.isSome_iff_exists.mp hsn
  obtain ⟨tn, htn'⟩ := Option.isSome_iff_exists.mp htn
  simp [completeLinking, teardownLinking, hl, hs1, ht1, hne, hsn', htn', hfind]

/-- Witness for C2: the output port "s" of `question_1` already carries
edge `e1`; a second link to `message_2` is rejected with the notice. -/
theorem completeLinking_occupied_rejected_check :
    (wLinkState.linking = some ⟨"question_1", "s"⟩ ∧
     (mapGet wLinkState.nodes "question_1").isSome = true ∧
     (mapGet wLinkState.nodes "message_2").isSome = true ∧
     (∃ p ∈ wLinkState.edges, p.2.source = "question_1" ∧ resolveSourcePort p.2 = "s")) ∧
    (completeLinking wLinkState "message_2" "input" "e9" "Sí").1.edges = wLinkState.edges ∧
    (completeLinking wLinkState "message_2" "input" "e9" "Sí").2
      = ["Ya existe una conexión para esa salida."] :=
  ⟨⟨by decide, by decide, by decide, by decide⟩,
   completeLinking_occupied_rejected wLinkState ⟨"question_1", "s"⟩ "message_2" "input" "e9" "Sí"
     (by decide) (by decide) (by decide) (by decide) (by decide) (by decide)
     (by decide)⟩

/-- C9: completing a link gesture whose target node equals its source is
rejected silently — no edge is added and no notice is shown. -/
theorem completeLinking_self_loop_silent (s : EditorState) (l : Linking)
    (tpid eid plabel : String) (hl : s.linking = some l) :
    (completeLinking s l.sourceId tpid eid plabel).1.edges = s.edges ∧
    (completeLinking s l.sourceId tpid eid plabel).2 = [] := by
  simp [completeLinking, teardownLinking, hl]

/-- Witness for C9: linking from `question_1` back onto `question_1`. -/
theorem completeLinking_self_loop_silent_check :
    wLinkState.linking = some ⟨"question_1", "s"⟩ ∧
    (completeLinking wLinkState "question_1" "input" "e9" "Sí").1.edges = wLinkState.edges ∧
    (completeLinking wLinkState "question_1" "input" "e9" "Sí").2 = [] :=
  ⟨by decide,
   completeLinking_self_loop_silent wLinkState ⟨"question_1", "s"⟩ "input" "e9" "Sí" (by decide)⟩

/-- C10: a freshly created question node is seeded with the default
answers "Sí" / "No" (and empty question text), and its derived output
ports are exactly the two ports keyed by the normalized forms of those
answers. -/
theorem addNode_question_defaults (s : EditorState) (cx cy rx ry : ℚ) :
    ∃ n : Node,
      mapGet (addNode s "question" cx cy rx ry).1.nodes (addNode s "question" cx cy rx ry).2
        = some n ∧
      n.question = "" ∧
      n.expected_answers = [⟨"Sí", ""⟩, ⟨"No", ""⟩] ∧
      questionOutputPorts n.expected_answers = [("s", "Sí"), ("no", "No")] := by
  have hanswers : (addNodeRecord s "question" cx cy rx ry).expected_answers
      = serialiseExpectedAnswers [⟨"Sí", ""⟩, ⟨"No", ""⟩] := rfl
  have hserialise : serialiseExpectedAnswers [⟨"Sí", ""⟩, ⟨"No", ""⟩]
      = [⟨"Sí", ""⟩, ⟨"No", ""⟩] := by decide
  refine ⟨addNodeRecord s "question" cx cy rx ry, ?_, rfl, ?_, ?_⟩
  · exact mapGet_mapSet_self _ _ _
  · rw [hanswers]
    exact hserialise
  · rw [hanswers, hserialise]
    decide

end DTB
